import Mathlib

/-!
Verification of the chroma-key mixed-reality video player
(`quest-chromakey-mr`): a shallow embedding in Lean 4 of the
compositor (src/js/chromakey.js), the stereo placement driver
(src/js/app.js) and the UI parameter provider (src/js/ui-controller.js),
with theorems settling the specification's claims.

Real-number quantities of the JavaScript/GLSL source are embedded as
rationals; machine floating point is not modelled, the theorems are about
the exact arithmetic the formulas denote.
-/

namespace ChromaMR

/-! ## Compositor: the fragment-stage key function (src/js/chromakey.js, FRAG_SRC)

The fragment shader computes
  `float diff  = distance(texColor.rgb, uKeyColor);`
  `float alpha = smoothstep(uTolerance, uTolerance + uSmoothing, diff);`
  `if (alpha < 0.01) discard;`
  `gl_FragColor = vec4(texColor.rgb, alpha);`
We embed the alpha derivation as a function of the key-distance value
`d` (the result of the GLSL `distance` builtin), per the GLSL
definitions of `clamp` and `smoothstep`. -/

/-- GLSL `clamp(x, 0.0, 1.0) = min(max(x, 0), 1)`. -/
def clamp01 (x : ℚ) : ℚ := min (max x 0) 1

/-- GLSL `smoothstep(edge0, edge1, x)`: Hermite interpolation
`u*u*(3 - 2*u)` of `u = clamp((x - edge0)/(edge1 - edge0), 0, 1)`. -/
def smoothstep (edge0 edge1 x : ℚ) : ℚ :=
  let u := clamp01 ((x - edge0) / (edge1 - edge0))
  u * u * (3 - 2 * u)

/-- Alpha derived by the fragment stage from tolerance `t`, smoothing `s`
and key-distance `d`: `smoothstep(uTolerance, uTolerance + uSmoothing, diff)`. -/
def alphaOf (t s d : ℚ) : ℚ := smoothstep t (t + s) d

/-- The fragment stage's write decision: `if (alpha < 0.01) discard;`
otherwise the pixel is written as `vec4(texColor.rgb, alpha)`.
`none` models `discard` (no color write). -/
def fragOutput (t s : ℚ) (rgb : ℚ × ℚ × ℚ) (d : ℚ) : Option ((ℚ × ℚ × ℚ) × ℚ) :=
  let alpha := alphaOf t s d
  if alpha < 1/100 then none else some (rgb, alpha)

/-! ## Matrix helpers of the stereo placement driver (src/js/app.js)

The driver stores 4x4 matrices as flat 16-element arrays in column-major
order (entry of row `r`, column `c` at index `c*4 + r`), mirrored here as
a 16-field structure `e0 … e15`. -/

/-- A 4x4 matrix as the driver's flat `Float32Array(16)`, column-major. -/
structure Mat4 where
  e0 : ℚ
  e1 : ℚ
  e2 : ℚ
  e3 : ℚ
  e4 : ℚ
  e5 : ℚ
  e6 : ℚ
  e7 : ℚ
  e8 : ℚ
  e9 : ℚ
  e10 : ℚ
  e11 : ℚ
  e12 : ℚ
  e13 : ℚ
  e14 : ℚ
  e15 : ℚ
  deriving DecidableEq

/-- `mat4Translate(x, y, z)` of app.js. -/
def mat4Translate (x y z : ℚ) : Mat4 :=
  ⟨1, 0, 0, 0,
   0, 1, 0, 0,
   0, 0, 1, 0,
   x, y, z, 1⟩

/-- `mat4Scale(sx, sy, sz)` of app.js. -/
def mat4Scale (sx sy sz : ℚ) : Mat4 :=
  ⟨sx, 0, 0, 0,
   0, sy, 0, 0,
   0, 0, sz, 0,
   0, 0, 0, 1⟩

/-- `mat4Multiply(a, b)` of app.js: the double loop
`out[j*4 + i] = a[i]*b[j*4] + a[4+i]*b[j*4+1] + a[8+i]*b[j*4+2] + a[12+i]*b[j*4+3]`
unrolled over `i, j ∈ {0,1,2,3}`. -/
def mat4Multiply (a b : Mat4) : Mat4 :=
  ⟨a.e0 * b.e0 + a.e4 * b.e1 + a.e8 * b.e2 + a.e12 * b.e3,
   a.e1 * b.e0 + a.e5 * b.e1 + a.e9 * b.e2 + a.e13 * b.e3,
   a.e2 * b.e0 + a.e6 * b.e1 + a.e10 * b.e2 + a.e14 * b.e3,
   a.e3 * b.e0 + a.e7 * b.e1 + a.e11 * b.e2 + a.e15 * b.e3,
   a.e0 * b.e4 + a.e4 * b.e5 + a.e8 * b.e6 + a.e12 * b.e7,
   a.e1 * b.e4 + a.e5 * b.e5 + a.e9 * b.e6 + a.e13 * b.e7,
   a.e2 * b.e4 + a.e6 * b.e5 + a.e10 * b.e6 + a.e14 * b.e7,
   a.e3 * b.e4 + a.e7 * b.e5 + a.e11 * b.e6 + a.e15 * b.e7,
   a.e0 * b.e8 + a.e4 * b.e9 + a.e8 * b.e10 + a.e12 * b.e11,
   a.e1 * b.e8 + a.e5 * b.e9 + a.e9 * b.e10 + a.e13 * b.e11,
   a.e2 * b.e8 + a.e6 * b.e9 + a.e10 * b.e10 + a.e14 * b.e11,
   a.e3 * b.e8 + a.e7 * b.e9 + a.e11 * b.e10 + a.e15 * b.e11,
   a.e0 * b.e12 + a.e4 * b.e13 + a.e8 * b.e14 + a.e12 * b.e15,
   a.e1 * b.e12 + a.e5 * b.e13 + a.e9 * b.e14 + a.e13 * b.e15,
   a.e2 * b.e12 + a.e6 * b.e13 + a.e10 * b.e14 + a.e14 * b.e15,
   a.e3 * b.e12 + a.e7 * b.e13 + a.e11 * b.e14 + a.e15 * b.e15⟩

/-- Apply a column-major matrix to a homogeneous point, as the vertex
shader's `uModel * aPosition` does: component `r` of the result is
`Σ_c m[c*4+r] * v_c`. -/
def applyMat4 (m : Mat4) (x y z w : ℚ) : ℚ × ℚ × ℚ × ℚ :=
  (m.e0 * x + m.e4 * y + m.e8 * z + m.e12 * w,
   m.e1 * x + m.e5 * y + m.e9 * z + m.e13 * w,
   m.e2 * x + m.e6 * y + m.e10 * z + m.e14 * w,
   m.e3 * x + m.e7 * y + m.e11 * z + m.e15 * w)

/-- The driver's video aspect-ratio choice in `xrRenderLoop`:
`let aspect = 16 / 9; if (video && video.videoWidth && video.videoHeight)
aspect = video.videoWidth / video.videoHeight;` — `none` models a missing
video or one reporting no (zero) dimensions. -/
def videoAspect (dims : Option (ℕ × ℕ)) : ℚ :=
  match dims with
  | some (w, h) => if w ≠ 0 ∧ h ≠ 0 then (w : ℚ) / (h : ℚ) else 16 / 9
  | none => 16 / 9

/-- The per-eye model matrix built in `xrRenderLoop`:
`mat4Multiply(mat4Translate(offX, offY, -dist), mat4Scale(halfWidth, halfHeight, 1))`
with `halfWidth = scale * aspect * 0.5` and `halfHeight = scale * 0.5`. -/
def modelMatrix (dist scale offX offY aspect : ℚ) : Mat4 :=
  mat4Multiply (mat4Translate offX offY (-dist))
    (mat4Scale (scale * aspect * (1/2)) (scale * (1/2)) 1)

/-! ## Compositor parameter state and draw path (src/js/chromakey.js)

Module state `currentKeyColor`, `currentTolerance`, `currentSmoothing`,
mutated by the setters and read by `render`. -/

/-- The compositor's current chroma-key parameter state. -/
structure ChromaState where
  currentKeyColor : ℚ × ℚ × ℚ
  currentTolerance : ℚ
  currentSmoothing : ℚ
  deriving DecidableEq

/-- The own properties of the `KEY_COLORS` object literal:
`{ green: [0,1,0], blue: [0,0,1], black: [0,0,0] }`, looked up by name.
This covers only the literal's own entries; the full JavaScript property
access `KEY_COLORS[name]`, which also walks the prototype chain, is
`keyColorAccess` below, and the two agree on every name that is not an
inherited `Object.prototype` member. -/
def KEY_COLORS (name : String) : Option (ℚ × ℚ × ℚ) :=
  if name = "green" then some (0, 1, 0)
  else if name = "blue" then some (0, 0, 1)
  else if name = "black" then some (0, 0, 0)
  else none

/-- Initial compositor parameter state:
`currentKeyColor = KEY_COLORS.green`, `currentTolerance = 0.35`,
`currentSmoothing = 0.10`. -/
def initChromaState : ChromaState := ⟨(0, 1, 0), 7/20, 1/10⟩

/-- `setKeyColor(name)`: `if (KEY_COLORS[name]) currentKeyColor = KEY_COLORS[name];`
— an unknown name leaves the state unchanged. -/
def setKeyColor (name : String) (st : ChromaState) : ChromaState :=
  match KEY_COLORS name with
  | some c => { st with currentKeyColor := c }
  | none => st

/-- `setTolerance(val)`: `currentTolerance = parseFloat(val);` (no clamping). -/
def setTolerance (val : ℚ) (st : ChromaState) : ChromaState :=
  { st with currentTolerance := val }

/-- `setSmoothing(val)`: `currentSmoothing = parseFloat(val);` (no clamping). -/
def setSmoothing (val : ℚ) (st : ChromaState) : ChromaState :=
  { st with currentSmoothing := val }

/-- The uniform values bound by one `render(projection, view, model, …)`
call: matrices plus the chroma-key params read from the current state at
draw time (`gl.uniform3fv(uKeyColor, currentKeyColor)` etc.). -/
structure DrawCall where
  projection : Mat4
  view : Mat4
  model : Mat4
  keyColor : ℚ × ℚ × ℚ
  tolerance : ℚ
  smoothing : ℚ
  deriving DecidableEq

/-- `render`: binds matrices and reads `currentKeyColor`,
`currentTolerance`, `currentSmoothing` from the module state for this draw. -/
def render (projection view model : Mat4) (st : ChromaState) : DrawCall :=
  ⟨projection, view, model,
   st.currentKeyColor, st.currentTolerance, st.currentSmoothing⟩

/-! ### The full JavaScript lookup semantics of `setKeyColor`

`setKeyColor(name)` guards with `if (KEY_COLORS[name]) …`, and JavaScript
property access walks the prototype chain: for a name that is an own
property of the literal the preset array is found, but for a name that is
a member inherited from `Object.prototype` (all of which are truthy —
built-in functions, and `Object.prototype` itself for the `__proto__`
accessor) the guard also passes and the inherited value is assigned to
`currentKeyColor`. Only a name that resolves to neither is a no-op
(`undefined` is falsy). -/

/-- A value the `currentKeyColor` variable can hold under full JavaScript
semantics: a preset RGB triple, or a truthy value inherited from
`Object.prototype` (tagged by the property name that reached it). -/
inductive KeyColorValue where
  | triple (c : ℚ × ℚ × ℚ)
  | protoMember (name : String)
  deriving DecidableEq

/-- The property names a plain object literal inherits from the standard
ECMAScript `Object.prototype`; every one of them evaluates to a truthy
value (a built-in function, or `Object.prototype` for `__proto__`). -/
def objectPrototypeMembers : List String :=
  ["constructor", "hasOwnProperty", "isPrototypeOf", "propertyIsEnumerable",
   "toLocaleString", "toString", "valueOf", "__proto__", "__defineGetter__",
   "__defineSetter__", "__lookupGetter__", "__lookupSetter__"]

/-- What the JavaScript property access `KEY_COLORS[name]` resolves to:
an own preset entry, a truthy inherited `Object.prototype` member, or
nothing (`undefined`, falsy). -/
def keyColorAccess (name : String) : Option KeyColorValue :=
  match KEY_COLORS name with
  | some c => some (KeyColorValue.triple c)
  | none =>
      if name ∈ objectPrototypeMembers then
        some (KeyColorValue.protoMember name)
      else none

/-- `setKeyColor(name)` under full JavaScript lookup semantics:
`if (KEY_COLORS[name]) currentKeyColor = KEY_COLORS[name];` — any truthy
resolution (preset or inherited member) is assigned, only an unresolved
name is a silent no-op. -/
def setKeyColorJS (name : String) (cur : KeyColorValue) : KeyColorValue :=
  match keyColorAccess name with
  | some v => v
  | none => cur

/-- Run a sequence of `setKeyColor` calls over the `currentKeyColor`
variable, starting from a given value. -/
def runKeyColors (cur : KeyColorValue) (names : List String) : KeyColorValue :=
  names.foldl (fun c n => setKeyColorJS n c) cur

/-! ## UI parameter provider state (src/js/ui-controller.js)

Module state `currentColor`, `tolerance`, `smoothing`, `screenDistance`,
`screenScale`, `screenOffsetX`, `screenOffsetY`, together with the
compositor state the UI handlers mutate through `ChromaKey.set…`. -/

/-- UI-provider state plus the compositor parameter state it drives. -/
structure UIState where
  currentColor : String
  tolerance : ℚ
  smoothing : ℚ
  screenDistance : ℚ
  screenScale : ℚ
  screenOffsetX : ℚ
  screenOffsetY : ℚ
  ck : ChromaState
  deriving DecidableEq

/-- Initial UI state: color green, tolerance 0.35, smoothing 0.10,
distance 2.0 m, scale 1.0, offsets (0, 1.5). -/
def initUIState : UIState :=
  ⟨"green", 7/20, 1/10, 2, 1, 0, 3/2, initChromaState⟩

/-- Step sizes `MOVE_STEP = 0.15`, `DEPTH_STEP = 0.3`, `SCALE_STEP = 0.15`. -/
def MOVE_STEP : ℚ := 3/20

/-- `DEPTH_STEP = 0.3` meters per tap. -/
def DEPTH_STEP : ℚ := 3/10

/-- `SCALE_STEP = 0.15` per tap. -/
def SCALE_STEP : ℚ := 3/20

/-- `setActiveColor(color)`: records the color, forwards it to
`ChromaKey.setKeyColor`, and — when the color is `black` and the current
tolerance exceeds 0.2 — resets the tolerance to 0.15 (also via
`ChromaKey.setTolerance`). -/
def setActiveColor (color : String) (s : UIState) : UIState :=
  let s1 := { s with currentColor := color, ck := setKeyColor color s.ck }
  if color = "black" ∧ 1/5 < s1.tolerance then
    { s1 with tolerance := 3/20, ck := setTolerance (3/20) s1.ck }
  else s1

/-- The UI-provider operations that mutate placement/key parameters. -/
inductive UIOp where
  /-- tolerance slider `input` event with the delivered value -/
  | toleranceSlider (v : ℚ)
  /-- smoothing slider `input` event -/
  | smoothingSlider (v : ℚ)
  /-- distance slider `input` event -/
  | distanceSlider (v : ℚ)
  /-- scale slider `input` event -/
  | scaleSlider (v : ℚ)
  /-- tap on a `[data-move]` button: left / right / up / down -/
  | moveLeft
  | moveRight
  | moveUp
  | moveDown
  /-- `closer` tap: `screenDistance = Math.max(0.3, screenDistance - DEPTH_STEP)` -/
  | moveCloser
  /-- `farther` tap: `screenDistance = Math.min(10, screenDistance + DEPTH_STEP)` -/
  | moveFarther
  /-- `xr-smaller` tap: `screenScale = Math.max(0.2, screenScale - SCALE_STEP)` -/
  | sizeSmaller
  /-- `xr-bigger` tap: `screenScale = Math.min(5, screenScale + SCALE_STEP)` -/
  | sizeBigger
  /-- color selection (button tap or XR color toggle target) -/
  | colorSelect (name : String)
  deriving DecidableEq

/-- Modelled from the spec: the HTML `min`/`max` attributes of the range
slider elements are not part of the JavaScript sources; per the spec's
parameter ranges and its clamp scenario ("clamped input of 12.0 →
effective distance stored as 10"), a slider delivers its value already
clamped to the parameter's range. -/
def sliderClamp (lo hi v : ℚ) : ℚ := min hi (max lo v)

/-- Apply one UI-provider mutation, as bound in `bindEvents`. -/
def applyUIOp (s : UIState) (op : UIOp) : UIState :=
  match op with
  | .toleranceSlider v =>
      let v := sliderClamp 0 1 v
      { s with tolerance := v, ck := setTolerance v s.ck }
  | .smoothingSlider v =>
      let v := sliderClamp 0 1 v
      { s with smoothing := v, ck := setSmoothing v s.ck }
  | .distanceSlider v =>
      { s with screenDistance := sliderClamp (3/10) 10 v }
  | .scaleSlider v =>
      { s with screenScale := sliderClamp (1/5) 5 v }
  | .moveLeft => { s with screenOffsetX := s.screenOffsetX - MOVE_STEP }
  | .moveRight => { s with screenOffsetX := s.screenOffsetX + MOVE_STEP }
  | .moveUp => { s with screenOffsetY := s.screenOffsetY + MOVE_STEP }
  | .moveDown => { s with screenOffsetY := s.screenOffsetY - MOVE_STEP }
  | .moveCloser =>
      { s with screenDistance := max (3/10) (s.screenDistance - DEPTH_STEP) }
  | .moveFarther =>
      { s with screenDistance := min 10 (s.screenDistance + DEPTH_STEP) }
  | .sizeSmaller =>
      { s with screenScale := max (1/5) (s.screenScale - SCALE_STEP) }
  | .sizeBigger =>
      { s with screenScale := min 5 (s.screenScale + SCALE_STEP) }
  | .colorSelect name => setActiveColor name s

/-- Run a sequence of UI mutations from a starting state. -/
def runUIOps (s : UIState) (ops : List UIOp) : UIState :=
  ops.foldl applyUIOp s

/-! ## Immersive per-frame callback (src/js/app.js, xrRenderLoop)

`xrRenderLoop(time, frame)` is modelled as the ordered trace of
externally visible actions one tick performs. Its inputs: whether
`xrSession` is non-null, whether `frame` is non-null, the pose resolved
by `frame.getViewerPose(xrRefSpace)` (`none` when null) carrying the
per-eye view descriptors, whether a playing video exists, the video's
reported dimensions, and the UI state read through the provider getters. -/

/-- A per-eye view descriptor supplied by the host for a frame. -/
structure XRView where
  projection : Mat4
  viewInverse : Mat4
  deriving DecidableEq

/-- An externally visible action of one immersive frame tick, in order. -/
inductive XREvent where
  /-- `xrSession.requestAnimationFrame(xrRenderLoop)` — re-registration -/
  | reregister
  /-- bind the layer framebuffer and clear it fully transparent -/
  | clearSurface
  /-- `ChromaKey.updateTexture(video)` -/
  | uploadFrame
  /-- `ChromaKey.render(projection, view, model, framebuffer, viewport)` -/
  | draw (call : DrawCall)
  deriving DecidableEq

/-- The draw issued for one view: model matrix from the placement
parameters and aspect ratio, chroma params read from the compositor state. -/
def viewDraw (s : UIState) (dims : Option (ℕ × ℕ)) (v : XRView) : XREvent :=
  XREvent.draw
    (render v.projection v.viewInverse
      (modelMatrix s.screenDistance s.screenScale
        s.screenOffsetX s.screenOffsetY (videoAspect dims))
      s.ck)

/-- One tick of `xrRenderLoop` as its ordered action trace:
guard on session and frame, re-register, resolve pose (return if null),
clear, upload the frame once per tick when a playing video exists, then
draw once per view in the order given. -/
def xrRenderLoopTrace (sessionAlive framePresent : Bool)
    (pose : Option (List XRView)) (videoPlaying : Bool)
    (dims : Option (ℕ × ℕ)) (s : UIState) : List XREvent :=
  if ¬sessionAlive ∨ ¬framePresent then []
  else
    XREvent.reregister ::
      match pose with
      | none => []
      | some views =>
          XREvent.clearSurface ::
            (if videoPlaying then [XREvent.uploadFrame] else []) ++
              views.map (viewDraw s dims)

/-- Whether an event is a compositor draw call. -/
def isDraw : XREvent → Bool
  | XREvent.draw _ => true
  | _ => false

/-- Number of draw calls issued in a tick's trace. -/
def drawCount (trace : List XREvent) : ℕ := (trace.filter isDraw).length

/-! ## Mode entry (src/js/app.js, startXR)

`startXR` is modelled as a pure function of its environment: whether
`navigator.xr` exists, the result of the `isSessionSupported` capability
query, and the outcome of the `requestSession` negotiation. -/

/-- Outcome of one `startXR` call: the resulting `isXR` mode flag
(false = Preview), the error messages surfaced via
`UIController.setStatus(…, 'error')`, and how many session negotiations
were attempted. -/
structure StartXRResult where
  isXR : Bool
  errors : List String
  sessionRequests : ℕ
  deriving DecidableEq

/-- `startXR()`: no `navigator.xr` → status error, stay in preview;
capability query false → status error, stay in preview; negotiation
rejected → caught, status error, `isXR = false`; success → `isXR = true`.
No path re-invokes `startXR` or re-requests a session (no retry). -/
def startXR (xrAvailable supported : Bool)
    (negotiation : Except String Unit) : StartXRResult :=
  if ¬xrAvailable then
    ⟨false, ["WebXR not available. Use Meta Quest Browser."], 0⟩
  else if ¬supported then
    ⟨false, ["Immersive AR not supported on this device."], 0⟩
  else
    match negotiation with
    | .error msg => ⟨false, ["Failed to start XR: " ++ msg], 1⟩
    | .ok _ => ⟨true, [], 1⟩

/-! ## Mode state machine and schedulers (src/js/app.js)

Mode (`isXR`), the preview scheduler's pending `requestAnimationFrame`
registration count (`previewAnimId` plus the loop's self-guard), and
which surface the compositor is initialized against. -/

/-- The driver's mode. -/
inductive Mode where
  | preview
  | immersive
  deriving DecidableEq

/-- The surface the compositor is currently initialized against. -/
inductive Surface where
  | previewCanvas
  | xrCanvas
  deriving DecidableEq

/-- Driver scheduler state. -/
structure AppState where
  mode : Mode
  /-- pending preview-loop registrations (`requestAnimationFrame(loop)`) -/
  pendingPreview : ℕ
  surface : Surface
  deriving DecidableEq

/-- State after `init()`: preview mode, compositor on the preview canvas,
`startPreviewLoop()` leaving exactly one pending registration. -/
def initAppState : AppState := ⟨Mode.preview, 1, Surface.previewCanvas⟩

/-- `onXREnd()` — the single teardown both exit paths reach:
`isXR = false`, re-init the compositor on the preview canvas,
`startPreviewLoop()` (runs `loop()` once, registering one new frame). -/
def onXREnd (s : AppState) : AppState :=
  ⟨Mode.preview, s.pendingPreview + 1, Surface.previewCanvas⟩

/-- Driver-level events. -/
inductive AppOp where
  /-- a pending preview `requestAnimationFrame` fires: the loop returns
  at once when `isXR`, else renders and re-registers itself -/
  | previewTick
  /-- successful `startXR`: `isXR = true`,
  `cancelAnimationFrame(previewAnimId)`, compositor re-init on `xr-canvas` -/
  | enterXR
  /-- the host fires the session `end` event → `onXREnd` -/
  | hostSessionEnd
  /-- `endXR()`: `xrSession.end()` when a session exists, whose `end`
  event runs `onXREnd`; a no-op without a session -/
  | userExit
  deriving DecidableEq

/-- One driver-level step. -/
def stepApp (s : AppState) (op : AppOp) : AppState :=
  match op with
  | .previewTick =>
      if s.pendingPreview = 0 then s
      else if s.mode = Mode.immersive then
        { s with pendingPreview := s.pendingPreview - 1 }
      else s
  | .enterXR =>
      if s.mode = Mode.immersive then s
      else ⟨Mode.immersive, 0, Surface.xrCanvas⟩
  | .hostSessionEnd =>
      if s.mode = Mode.immersive then onXREnd s else s
  | .userExit =>
      if s.mode = Mode.immersive then onXREnd s else s

/-- Run the driver from `init()` through a sequence of events. -/
def runApp (ops : List AppOp) : AppState :=
  ops.foldl stepApp initAppState

/-! ## Derived predicates used by the theorems -/

/-- The Hermite polynomial `u*u*(3 - 2*u)` that GLSL `smoothstep`
evaluates on the clamped parameter. -/
def hermite (u : ℚ) : ℚ := u * u * (3 - 2 * u)

/-- The three preset key-color triples of `KEY_COLORS`. -/
def keyColorPresets : List (ℚ × ℚ × ℚ) := [(0, 1, 0), (0, 0, 1), (0, 0, 0)]

/-- Placement-parameter ranges actually maintained by the code:
`0.3 ≤ distance ≤ 10` (the boundary 0.3 itself is reachable) and
`0.2 ≤ scale ≤ 5`. -/
def placementInv (s : UIState) : Prop :=
  3/10 ≤ s.screenDistance ∧ s.screenDistance ≤ 10 ∧
    1/5 ≤ s.screenScale ∧ s.screenScale ≤ 5

instance (s : UIState) : Decidable (placementInv s) := by
  unfold placementInv; infer_instance

/-- Scheduler invariant of the driver: in preview mode exactly one
preview-loop registration is pending, in immersive mode none. -/
def appInv (s : AppState) : Prop :=
  (s.mode = Mode.preview → s.pendingPreview = 1) ∧
    (s.mode = Mode.immersive → s.pendingPreview = 0)

instance (s : AppState) : Decidable (appInv s) := by
  unfold appInv; infer_instance

/-! ## Helper lemmas about the clamp and the Hermite ramp -/

lemma clamp01_nonneg (x : ℚ) : 0 ≤ clamp01 x :=
  le_min (le_max_right x 0) one_pos.le

lemma clamp01_le_one (x : ℚ) : clamp01 x ≤ 1 :=
  min_le_right _ _

lemma clamp01_mono {x y : ℚ} (h : x ≤ y) : clamp01 x ≤ clamp01 y :=
  min_le_min (max_le_max h le_rfl) le_rfl

lemma clamp01_sub_le {x y : ℚ} (h : y ≤ x) :
    clamp01 x - clamp01 y ≤ x - y := by
  unfold clamp01
  simp only [max_def, min_def]
  split_ifs <;> linarith

lemma clamp01_lip (x y : ℚ) : |clamp01 x - clamp01 y| ≤ |x - y| := by
  rcases le_total y x with h | h
  · rw [abs_of_nonneg (sub_nonneg.2 (clamp01_mono h)), abs_of_nonneg (sub_nonneg.2 h)]
    exact clamp01_sub_le h
  · rw [abs_sub_comm, abs_sub_comm x y,
      abs_of_nonneg (sub_nonneg.2 (clamp01_mono h)), abs_of_nonneg (sub_nonneg.2 h)]
    exact clamp01_sub_le h

lemma clamp01_of_nonpos {x : ℚ} (h : x ≤ 0) : clamp01 x = 0 := by
  unfold clamp01
  rw [max_eq_right h, min_eq_left one_pos.le]

lemma clamp01_of_one_le {x : ℚ} (h : 1 ≤ x) : clamp01 x = 1 := by
  unfold clamp01
  rw [max_eq_left (le_trans one_pos.le h), min_eq_right h]

lemma hermite_mono {u v : ℚ} (hu : 0 ≤ u) (hv : v ≤ 1) (huv : u ≤ v) :
    hermite u ≤ hermite v := by
  unfold hermite
  nlinarith [sq_nonneg (u - v), sq_nonneg (u + v), mul_nonneg hu (sub_nonneg.2 huv),
    mul_nonneg (sub_nonneg.2 huv) (sub_nonneg.2 hv)]

lemma hermite_sub_le {u v : ℚ} (h : v ≤ u) :
    hermite u - hermite v ≤ 3/2 * (u - v) := by
  unfold hermite
  nlinarith [mul_nonneg (sub_nonneg.2 h) (sq_nonneg (u + v - 1)),
    mul_nonneg (sub_nonneg.2 h) (sq_nonneg (u - 1/2)),
    mul_nonneg (sub_nonneg.2 h) (sq_nonneg (v - 1/2))]

lemma hermite_lip {u v : ℚ} (hu0 : 0 ≤ u) (hu1 : u ≤ 1)
    (hv0 : 0 ≤ v) (hv1 : v ≤ 1) :
    |hermite u - hermite v| ≤ 3/2 * |u - v| := by
  rcases le_total v u with h | h
  · rw [abs_of_nonneg (sub_nonneg.2 (hermite_mono hv0 hu1 h)),
      abs_of_nonneg (sub_nonneg.2 h)]
    exact hermite_sub_le h
  · rw [abs_sub_comm, abs_sub_comm u v,
      abs_of_nonneg (sub_nonneg.2 (hermite_mono hu0 hv1 h)),
      abs_of_nonneg (sub_nonneg.2 h)]
    exact hermite_sub_le h

lemma alphaOf_eq_hermite (t s d : ℚ) :
    alphaOf t s d = hermite (clamp01 ((d - t) / s)) := by
  have h : t + s - t = s := by ring
  simp [alphaOf, smoothstep, hermite, h]

/-- C1: for tolerance `t ≥ 0` and (positive) smoothing `s`, the
fragment-stage alpha `smoothstep(t, t+s, d)` is monotonically
non-decreasing in the key-distance `d`, equals 0 for `d ≤ t`, equals 1
for `d ≥ t+s`, is continuous across the ramp (witnessed by a Lipschitz
bound with constant `3/(2s)`), a pixel is discarded — no color write —
exactly when its alpha is below the epsilon 0.01, and at `t = 0.35`,
`s = 0.10`, `d = 0.40` the alpha is exactly 0.5. -/
theorem c1_fragment_alpha (t s : ℚ) (ht : 0 ≤ t) (hs : 0 < s) :
    (∀ d d', d ≤ d' → alphaOf t s d ≤ alphaOf t s d') ∧
    (∀ d, d ≤ t → alphaOf t s d = 0) ∧
    (∀ d, t + s ≤ d → alphaOf t s d = 1) ∧
    (∀ d d', |alphaOf t s d - alphaOf t s d'| ≤ 3 / (2 * s) * |d - d'|) ∧
    (∀ rgb d, fragOutput t s rgb d = none ↔ alphaOf t s d < 1/100) ∧
    alphaOf (7/20) (1/10) (2/5) = 1/2 := by
  refine ⟨?_, ?_, ?_, ?_, ?_, ?_⟩
  · intro d d' h
    rw [alphaOf_eq_hermite, alphaOf_eq_hermite]
    refine hermite_mono (clamp01_nonneg _) (clamp01_le_one _) (clamp01_mono ?_)
    gcongr
  · intro d h
    rw [alphaOf_eq_hermite, clamp01_of_nonpos (by
      apply div_nonpos_of_nonpos_of_nonneg (by linarith) hs.le)]
    norm_num [hermite]
  · intro d h
    rw [alphaOf_eq_hermite, clamp01_of_one_le ((one_le_div hs).2 (by linarith))]
    norm_num [hermite]
  · intro d d'
    rw [alphaOf_eq_hermite, alphaOf_eq_hermite]
    calc |hermite (clamp01 ((d - t) / s)) - hermite (clamp01 ((d' - t) / s))|
        ≤ 3/2 * |clamp01 ((d - t) / s) - clamp01 ((d' - t) / s)| :=
          hermite_lip (clamp01_nonneg _) (clamp01_le_one _)
            (clamp01_nonneg _) (clamp01_le_one _)
      _ ≤ 3/2 * |(d - t) / s - (d' - t) / s| := by
          have := clamp01_lip ((d - t) / s) ((d' - t) / s)
          linarith
      _ = 3 / (2 * s) * |d - d'| := by
          rw [div_sub_div_same, show d - t - (d' - t) = d - d' by ring,
            abs_div, abs_of_pos hs]
          field_simp
  · intro rgb d
    by_cases h : alphaOf t s d < 1/100 <;> simp [fragOutput, h]
  · norm_num [alphaOf, smoothstep, clamp01]

/-- Witness for C1 at `t = 0.35`, `s = 0.10`: the ramp value at
`d = 0.40` is exactly one half, and the alpha at `d = 0.20 ≤ t` is zero. -/
theorem c1_fragment_alpha_witness :
    alphaOf (7/20) (1/10) (2/5) = 1/2 ∧ alphaOf (7/20) (1/10) (1/5) = 0 :=
  ⟨(c1_fragment_alpha (7/20) (1/10) (by norm_num) (by norm_num)).2.2.2.2.2,
   (c1_fragment_alpha (7/20) (1/10) (by norm_num) (by norm_num)).2.1 (1/5)
     (by norm_num)⟩

/-! ## The per-eye placement transform -/

lemma mat4Multiply_apply (a b : Mat4) (x y z w : ℚ) :
    applyMat4 (mat4Multiply a b) x y z w =
      applyMat4 a (applyMat4 b x y z w).1 (applyMat4 b x y z w).2.1
        (applyMat4 b x y z w).2.2.1 (applyMat4 b x y z w).2.2.2 := by
  dsimp only [applyMat4, mat4Multiply]
  refine Prod.ext ?_ (Prod.ext ?_ (Prod.ext ?_ ?_)) <;> dsimp only <;> ring

/-- C2: the driver's per-eye model matrix is
`Translate(offsetX, offsetY, -distance) * Scale(halfWidth, halfHeight, 1)`
with `halfWidth = scale*aspect*0.5`, `halfHeight = scale*0.5`: it maps a
local point `(x, y, z)` to
`(halfWidth*x + offsetX, halfHeight*y + offsetY, z - distance)` — the
scale applied first (inner), the translation last (outer) — so the
`[-1,1]×[-1,1]` quad becomes `2*halfWidth` wide and `2*halfHeight` tall
with center `(offsetX, offsetY, -distance)`; the aspect ratio enters only
the half-width and defaults to 16/9 when the video reports no dimensions. -/
theorem c2_placement_model (dist scale offX offY aspect x y z : ℚ) :
    applyMat4 (modelMatrix dist scale offX offY aspect) x y z 1 =
      (scale * aspect * (1/2) * x + offX, scale * (1/2) * y + offY,
        z - dist, 1) ∧
    applyMat4 (modelMatrix dist scale offX offY aspect) x y z 1 =
      applyMat4 (mat4Translate offX offY (-dist))
        (scale * aspect * (1/2) * x) (scale * (1/2) * y) z 1 ∧
    applyMat4 (modelMatrix dist scale offX offY aspect) 0 0 0 1 =
      (offX, offY, -dist, 1) ∧
    (applyMat4 (modelMatrix dist scale offX offY aspect) 1 0 0 1).1 -
        (applyMat4 (modelMatrix dist scale offX offY aspect) (-1) 0 0 1).1 =
      2 * (scale * aspect * (1/2)) ∧
    (applyMat4 (modelMatrix dist scale offX offY aspect) 0 1 0 1).2.1 -
        (applyMat4 (modelMatrix dist scale offX offY aspect) 0 (-1) 0 1).2.1 =
      2 * (scale * (1/2)) ∧
    videoAspect none = 16/9 := by
  refine ⟨?_, ?_, ?_, ?_, ?_, rfl⟩ <;>
    dsimp only [modelMatrix, mat4Multiply, mat4Translate, mat4Scale,
      applyMat4] <;>
    first
      | (refine Prod.ext ?_ (Prod.ext ?_ (Prod.ext ?_ ?_)) <;> dsimp only <;>
          ring)
      | ring

/-! ## Parameter round-trip and key-parameter invariants -/

/-- C3: after `setKeyColor`, `setTolerance`, `setSmoothing`, the very
next `render` binds exactly the values just set — the uniforms of that
draw are the fresh key color, tolerance and smoothing, with no
stale-parameter lag. -/
theorem c3_no_stale_params (st : ChromaState) (name : String)
    (c : ℚ × ℚ × ℚ) (tol sm : ℚ) (p v m : Mat4)
    (h : KEY_COLORS name = some c) :
    render p v m (setSmoothing sm (setTolerance tol (setKeyColor name st))) =
      ⟨p, v, m, c, tol, sm⟩ := by
  simp [render, setSmoothing, setTolerance, setKeyColor, h]

/-- Witness for C3: setting green, tolerance 0.2, smoothing 0.05 and
drawing with identity matrices binds exactly those values. -/
theorem c3_no_stale_params_witness :
    render (mat4Scale 1 1 1) (mat4Scale 1 1 1) (mat4Scale 1 1 1)
        (setSmoothing (1/20) (setTolerance (1/5)
          (setKeyColor "green" initChromaState))) =
      ⟨mat4Scale 1 1 1, mat4Scale 1 1 1, mat4Scale 1 1 1,
        (0, 1, 0), 1/5, 1/20⟩ :=
  c3_no_stale_params initChromaState "green" (0, 1, 0) (1/5) (1/20)
    (mat4Scale 1 1 1) (mat4Scale 1 1 1) (mat4Scale 1 1 1) (by decide)

/-- Counterexample to C5 as stated: the compositor setters store the
passed value verbatim, so passing −1 to `setTolerance` leaves a stored
tolerance that is not non-negative. -/
theorem c5_counterexample :
    ¬ 0 ≤ (setTolerance (-1) initChromaState).currentTolerance := by
  decide

/-- C5 (amended): `setTolerance` and `setSmoothing` store the passed
value verbatim without clamping; the stored tolerance and smoothing are
non-negative after a mutation exactly when the value passed to it is
non-negative. -/
theorem c5_key_params_nonneg (st : ChromaState) (v : ℚ) (hv : 0 ≤ v) :
    (setTolerance v st).currentTolerance = v ∧
    0 ≤ (setTolerance v st).currentTolerance ∧
    (setTolerance v st).currentSmoothing = st.currentSmoothing ∧
    (setSmoothing v st).currentSmoothing = v ∧
    0 ≤ (setSmoothing v st).currentSmoothing ∧
    (setSmoothing v st).currentTolerance = st.currentTolerance := by
  simp [setTolerance, setSmoothing, hv]

/-- Witness for C5 (amended) at value 0.25 from the initial state. -/
theorem c5_key_params_nonneg_witness :
    (setTolerance (1/4) initChromaState).currentTolerance = 1/4 ∧
    0 ≤ (setTolerance (1/4) initChromaState).currentTolerance ∧
    (setTolerance (1/4) initChromaState).currentSmoothing =
      initChromaState.currentSmoothing ∧
    (setSmoothing (1/4) initChromaState).currentSmoothing = 1/4 ∧
    0 ≤ (setSmoothing (1/4) initChromaState).currentSmoothing ∧
    (setSmoothing (1/4) initChromaState).currentTolerance =
      initChromaState.currentTolerance :=
  c5_key_params_nonneg initChromaState (1/4) (by norm_num)

/-- Counterexample to C9 as stated: under full JavaScript lookup
semantics, `setKeyColor('toString')` is not a no-op — the guard
`if (KEY_COLORS['toString'])` finds the truthy inherited
`Object.prototype.toString`, assigns it, and the resulting
`currentKeyColor` is none of the three preset triples. -/
theorem c9_counterexample :
    setKeyColorJS "toString" (KeyColorValue.triple (0, 1, 0)) ≠
      KeyColorValue.triple (0, 1, 0) ∧
    setKeyColorJS "toString" (KeyColorValue.triple (0, 1, 0)) ∉
      keyColorPresets.map KeyColorValue.triple := by
  decide

/-- C9 (amended): `setKeyColor` with one of the preset names assigns that
preset; a name that resolves to nothing — neither a preset nor a truthy
inherited `Object.prototype` member — is a silent no-op; and, starting
from the initial green key, every key-color state reachable through
`setKeyColor` calls avoiding the inherited `Object.prototype` member
names is one of the three preset triples green, blue, black. -/
theorem c9_key_color_presets :
    (∀ cur name c, KEY_COLORS name = some c →
      setKeyColorJS name cur = KeyColorValue.triple c) ∧
    (∀ cur name, keyColorAccess name = none → setKeyColorJS name cur = cur) ∧
    (∀ names : List String, (∀ n ∈ names, n ∉ objectPrototypeMembers) →
      runKeyColors (KeyColorValue.triple (0, 1, 0)) names ∈
        keyColorPresets.map KeyColorValue.triple) := by
  refine ⟨?_, ?_, ?_⟩
  · intro cur name c h
    simp [setKeyColorJS, keyColorAccess, h]
  · intro cur name h
    simp [setKeyColorJS, h]
  · have step : ∀ (cur : KeyColorValue) (n : String),
        n ∉ objectPrototypeMembers →
        cur ∈ keyColorPresets.map KeyColorValue.triple →
        setKeyColorJS n cur ∈ keyColorPresets.map KeyColorValue.triple := by
      intro cur n hn hcur
      simp only [setKeyColorJS, keyColorAccess, KEY_COLORS]
      split_ifs <;> simp_all [keyColorPresets]
    have main : ∀ (l : List String) (cur : KeyColorValue),
        (∀ n ∈ l, n ∉ objectPrototypeMembers) →
        cur ∈ keyColorPresets.map KeyColorValue.triple →
        runKeyColors cur l ∈ keyColorPresets.map KeyColorValue.triple := by
      intro l
      induction l with
      | nil => intro cur _ h; simpa [runKeyColors] using h
      | cons n rest ih =>
          intro cur hl h
          have hn := hl n (List.mem_cons_self n rest)
          have hrest : ∀ m ∈ rest, m ∉ objectPrototypeMembers :=
            fun m hm => hl m (List.mem_cons_of_mem n hm)
          simpa [runKeyColors] using
            ih (setKeyColorJS n cur) hrest (step cur n hn h)
    intro names hnames
    exact main names (KeyColorValue.triple (0, 1, 0)) hnames (by decide)

/-- Witness for C9 (amended): "purple" resolves to nothing and is a
no-op, and a run over preset and unresolved names ends on a preset. -/
theorem c9_key_color_presets_witness :
    setKeyColorJS "purple" (KeyColorValue.triple (0, 1, 0)) =
      KeyColorValue.triple (0, 1, 0) ∧
    runKeyColors (KeyColorValue.triple (0, 1, 0))
        ["blue", "purple", "black"] ∈
      keyColorPresets.map KeyColorValue.triple :=
  ⟨c9_key_color_presets.2.1 (KeyColorValue.triple (0, 1, 0)) "purple"
      (by decide),
   c9_key_color_presets.2.2 ["blue", "purple", "black"] (by decide)⟩

/-- C10: selecting black while the UI tolerance exceeds 0.2 resets the
tolerance to 0.15 (both in the UI state and, via `setTolerance`, in the
compositor); selecting green or blue, or selecting black at tolerance
≤ 0.2, leaves the tolerance unchanged. -/
theorem c10_black_resets_tolerance (s : UIState) :
    (setActiveColor "black" s).tolerance =
      (if 1/5 < s.tolerance then 3/20 else s.tolerance) ∧
    (setActiveColor "black" s).ck.currentTolerance =
      (if 1/5 < s.tolerance then 3/20 else s.ck.currentTolerance) ∧
    (setActiveColor "green" s).tolerance = s.tolerance ∧
    (setActiveColor "green" s).ck.currentTolerance = s.ck.currentTolerance ∧
    (setActiveColor "blue" s).tolerance = s.tolerance ∧
    (setActiveColor "blue" s).ck.currentTolerance = s.ck.currentTolerance := by
  refine ⟨?_, ?_, ?_, ?_, ?_, ?_⟩ <;>
    simp only [setActiveColor, setKeyColor, setTolerance, KEY_COLORS] <;>
    norm_num <;>
    split_ifs <;>
    simp_all

/-! ## Placement-parameter invariant -/

/-- Counterexample to C4 as stated: six `closer` taps from the initial
state (distance 2.0, depth step 0.3, clamped by
`Math.max(0.3, screenDistance - DEPTH_STEP)`) leave the distance at
exactly 0.3, so the claimed strict bound `distanceMeters > 0.3` does not
hold after every mutation. -/
theorem c4_counterexample :
    (runUIOps initUIState
        (List.replicate 6 UIOp.moveCloser)).screenDistance = 3/10 ∧
    ¬ 3/10 <
        (runUIOps initUIState
          (List.replicate 6 UIOp.moveCloser)).screenDistance := by
  have hval : (runUIOps initUIState
      (List.replicate 6 UIOp.moveCloser)).screenDistance = 3/10 := by
    norm_num [runUIOps, List.replicate, applyUIOp, initUIState, DEPTH_STEP,
      max_def]
  exact ⟨hval, by rw [hval]; norm_num⟩

/-- C4 (amended): after every UI-provider mutation starting from the
initial state (distance 2.0, scale 1.0), the placement parameters satisfy
`0.3 ≤ distanceMeters ≤ 10` (the lower boundary itself is reachable) and
`scale ∈ [0.2, 5]`; an out-of-range request such as a distance of 12.0 is
clamped to the boundary (stored as 10), not rejected. -/
theorem c4_placement_invariant :
    (∀ ops : List UIOp, placementInv (runUIOps initUIState ops)) ∧
    (runUIOps initUIState [UIOp.distanceSlider 12]).screenDistance = 10 := by
  have step : ∀ (s : UIState) (op : UIOp),
      placementInv s → placementInv (applyUIOp s op) := by
    intro s op h
    obtain ⟨h1, h2, h3, h4⟩ := h
    cases op with
    | toleranceSlider v =>
        simp only [applyUIOp, placementInv, sliderClamp, setTolerance]
        exact ⟨h1, h2, h3, h4⟩
    | smoothingSlider v =>
        simp only [applyUIOp, placementInv, sliderClamp, setSmoothing]
        exact ⟨h1, h2, h3, h4⟩
    | distanceSlider v =>
        simp only [applyUIOp, placementInv, sliderClamp]
        exact ⟨le_min (by norm_num) (le_max_left _ _), min_le_left _ _,
          h3, h4⟩
    | scaleSlider v =>
        simp only [applyUIOp, placementInv, sliderClamp]
        exact ⟨h1, h2, le_min (by norm_num) (le_max_left _ _),
          min_le_left _ _⟩
    | moveLeft =>
        simp only [applyUIOp, placementInv]
        exact ⟨h1, h2, h3, h4⟩
    | moveRight =>
        simp only [applyUIOp, placementInv]
        exact ⟨h1, h2, h3, h4⟩
    | moveUp =>
        simp only [applyUIOp, placementInv]
        exact ⟨h1, h2, h3, h4⟩
    | moveDown =>
        simp only [applyUIOp, placementInv]
        exact ⟨h1, h2, h3, h4⟩
    | moveCloser =>
        simp only [applyUIOp, placementInv, DEPTH_STEP]
        exact ⟨le_max_left _ _, max_le (by norm_num) (by linarith), h3, h4⟩
    | moveFarther =>
        simp only [applyUIOp, placementInv, DEPTH_STEP]
        exact ⟨le_min (by norm_num) (by linarith), min_le_left _ _, h3, h4⟩
    | sizeSmaller =>
        simp only [applyUIOp, placementInv, SCALE_STEP]
        exact ⟨h1, h2, le_max_left _ _, max_le (by norm_num) (by linarith)⟩
    | sizeBigger =>
        simp only [applyUIOp, placementInv, SCALE_STEP]
        exact ⟨h1, h2, le_min (by norm_num) (by linarith), min_le_left _ _⟩
    | colorSelect name =>
        simp only [applyUIOp, placementInv, setActiveColor, setKeyColor,
          setTolerance]
        split_ifs <;> exact ⟨h1, h2, h3, h4⟩
  constructor
  · intro ops
    have main : ∀ (l : List UIOp) (s : UIState),
        placementInv s → placementInv (runUIOps s l) := by
      intro l
      induction l with
      | nil => intro s h; simpa [runUIOps] using h
      | cons op rest ih =>
          intro s h
          simpa [runUIOps] using ih (applyUIOp s op) (step s op h)
    exact main ops initUIState (by norm_num [placementInv, initUIState])
  · norm_num [runUIOps, applyUIOp, sliderClamp, initUIState, max_def, min_def]

/-! ## Immersive loop and mode transitions -/

/-- C6: on an immersive frame tick (session and frame present), the
callback re-registers itself before any other work — re-registration is
the first action of the trace — and on a tick whose pose resolves to
null, zero draw calls are issued while the callback is still
re-registered for the next tick. -/
theorem c6_reregister_first (pose : Option (List XRView))
    (videoPlaying : Bool) (dims : Option (ℕ × ℕ)) (s : UIState) :
    (xrRenderLoopTrace true true pose videoPlaying dims s).head? =
      some XREvent.reregister ∧
    (pose = none →
      drawCount (xrRenderLoopTrace true true pose videoPlaying dims s) = 0 ∧
      XREvent.reregister ∈
        xrRenderLoopTrace true true pose videoPlaying dims s) := by
  constructor
  · cases pose <;> simp [xrRenderLoopTrace]
  · intro hp
    subst hp
    simp [xrRenderLoopTrace, drawCount, isDraw]

/-- Witness for C6 on a null-pose tick with a playing 16:9 video. -/
theorem c6_reregister_first_witness :
    drawCount (xrRenderLoopTrace true true none true (some (16, 9))
        initUIState) = 0 ∧
    XREvent.reregister ∈
      xrRenderLoopTrace true true none true (some (16, 9)) initUIState :=
  (c6_reregister_first none true (some (16, 9)) initUIState).2 rfl

/-- C7: on every failed mode entry — WebXR missing, the capability query
reporting immersive mode unsupported, or the host session negotiation
rejecting — `startXR` leaves the mode at Preview (`isXR = false`),
surfaces exactly one human-readable error message, and attempts at most
one session negotiation (no automatic retry). -/
theorem c7_mode_entry_failure (avail supported : Bool)
    (neg : Except String Unit)
    (h : avail = false ∨ supported = false ∨ ∃ msg, neg = Except.error msg) :
    (startXR avail supported neg).isXR = false ∧
    (∃ msg, (startXR avail supported neg).errors = [msg]) ∧
    (startXR avail supported neg).sessionRequests ≤ 1 := by
  cases avail <;> cases supported <;> cases neg <;> simp_all [startXR]

/-- Witness for C7: capability query answers unsupported. -/
theorem c7_mode_entry_failure_witness :
    (startXR true false (Except.ok ())).isXR = false ∧
    (∃ msg, (startXR true false (Except.ok ())).errors = [msg]) ∧
    (startXR true false (Except.ok ())).sessionRequests ≤ 1 :=
  c7_mode_entry_failure true false (Except.ok ()) (Or.inr (Or.inl rfl))

/-- C8: from any reachable driver state, explicit user exit and
host-initiated session end perform the identical teardown; after an exit
from immersive mode the driver is back in Preview with the compositor
re-initialized on the preview canvas and exactly one pending
preview-loop registration — and no reachable state ever has more than
one pending preview-loop registration. -/
theorem c8_exit_convergence (ops : List AppOp) :
    stepApp (runApp ops) AppOp.userExit =
      stepApp (runApp ops) AppOp.hostSessionEnd ∧
    (runApp ops).pendingPreview ≤ 1 ∧
    ((runApp ops).mode = Mode.immersive →
      (stepApp (runApp ops) AppOp.userExit).mode = Mode.preview ∧
      (stepApp (runApp ops) AppOp.userExit).surface =
        Surface.previewCanvas ∧
      (stepApp (runApp ops) AppOp.userExit).pendingPreview = 1) := by
  have step : ∀ (s : AppState) (op : AppOp),
      appInv s → appInv (stepApp s op) := by
    intro s op h
    obtain ⟨hp, hi⟩ := h
    cases op <;> cases hm : s.mode <;>
      simp_all [stepApp, onXREnd, appInv]
  have inv : ∀ l : List AppOp, appInv (runApp l) := by
    intro l
    rw [runApp]
    have main : ∀ (l : List AppOp) (s : AppState),
        appInv s → appInv (List.foldl stepApp s l) := by
      intro l
      induction l with
      | nil => intro s h; simpa using h
      | cons op rest ih => intro s h; simpa using ih (stepApp s op) (step s op h)
    exact main l initAppState (by decide)
  obtain ⟨hp, hi⟩ := inv ops
  refine ⟨rfl, ?_, ?_⟩
  · cases hm : (runApp ops).mode
    · exact le_of_eq (hp hm)
    · simp [hi hm]
  · intro hm
    simp [stepApp, hm, onXREnd, hi hm]

/-- Witness for C8: entering immersive mode and exiting via `endXR`
returns to Preview on the preview canvas with one pending registration. -/
theorem c8_exit_convergence_witness :
    (stepApp (runApp [AppOp.enterXR]) AppOp.userExit).mode = Mode.preview ∧
    (stepApp (runApp [AppOp.enterXR]) AppOp.userExit).surface =
      Surface.previewCanvas ∧
    (stepApp (runApp [AppOp.enterXR]) AppOp.userExit).pendingPreview = 1 :=
  (c8_exit_convergence [AppOp.enterXR]).2.2 (by decide)

end ChromaMR
